import Mathlib

/-!
Shallow embedding of the billing-extensions SDK status-synchronization core:
the status diff engine (`src/core/diff.ts`), the refresh pipeline and cache
tiers of `createClient.ts`, the AutoSync scheduler (`src/core/autosync.ts`),
the request de-duplication wrapper, the stale-while-revalidate gate and the
background tracking coordinator. Definitions are translated function by
function from the TypeScript source; theorems settle the specification
claims about them.
-/

namespace BillingExt

/-- Plan descriptor: exactly the fields compared by `computePlanChanged`
(`id`, `nickname`, `status`, `currentPeriodEnd`). -/
structure Plan where
  id : String
  nickname : String
  status : String
  currentPeriodEnd : Int
  deriving DecidableEq, Repr

/-- Usage descriptor: exactly the fields compared by `computeUsageChanged`
(`used`, `limit`, `resetsAt`). -/
structure Usage where
  used : Int
  limit : Int
  resetsAt : Int
  deriving DecidableEq, Repr

/-- User status snapshot: a paid flag, optional plan and usage sections and
a per-installation user identifier (present in the API type but not compared
by the diff engine). `Option` models the TS `undefined | null` absence. -/
structure UserStatus where
  paid : Bool
  plan : Option Plan
  usage : Option Usage
  userId : String
  deriving DecidableEq, Repr

/-- `StatusDiff` from `src/client/types.ts`. -/
structure StatusDiff where
  entitlementChanged : Bool
  planChanged : Bool
  usageChanged : Bool
  deriving DecidableEq, Repr

/-- `computeEntitlementChanged` from `src/core/diff.ts`. -/
def computeEntitlementChanged (prev : Option UserStatus) (next : UserStatus) : Bool :=
  match prev with
  | none => true
  | some p => p.paid != next.paid

/-- `computePlanChanged` from `src/core/diff.ts`: absent `prev` means changed
iff `next.plan` is present; otherwise the one-absent/both-present policy over
`id`, `nickname`, `status`, `currentPeriodEnd`. -/
def computePlanChanged (prev : Option UserStatus) (next : UserStatus) : Bool :=
  match prev with
  | none => next.plan.isSome
  | some p =>
    match p.plan, next.plan with
    | none, none => false
    | none, some _ => true
    | some _, none => true
    | some pp, some np =>
      pp.id != np.id || pp.nickname != np.nickname || pp.status != np.status ||
        pp.currentPeriodEnd != np.currentPeriodEnd

/-- `computeUsageChanged` from `src/core/diff.ts`. -/
def computeUsageChanged (prev : Option UserStatus) (next : UserStatus) : Bool :=
  match prev with
  | none => next.usage.isSome
  | some p =>
    match p.usage, next.usage with
    | none, none => false
    | none, some _ => true
    | some _, none => true
    | some pu, some nu =>
      pu.used != nu.used || pu.limit != nu.limit || pu.resetsAt != nu.resetsAt

/-- `computeStatusDiff` from `src/core/diff.ts`. -/
def computeStatusDiff (prev : Option UserStatus) (next : UserStatus) : StatusDiff :=
  { entitlementChanged := computeEntitlementChanged prev next
    planChanged := computePlanChanged prev next
    usageChanged := computeUsageChanged prev next }

/-- `hasAnyChange` from `src/core/diff.ts`. -/
def hasAnyChange (diff : StatusDiff) : Bool :=
  diff.entitlementChanged || diff.planChanged || diff.usageChanged

/-- `CachedStatus` from `src/client/types.ts`: the persisted unit. -/
structure CachedStatus where
  status : UserStatus
  fetchedAt : Nat
  deriving DecidableEq, Repr

/-- Observable actions of the refresh pipeline: the network fetch, the store
write and a dispatch of one registered handler (identified by number). -/
inductive Action where
  | fetch (u : UserStatus)
  | storeWrite (c : CachedStatus)
  | handlerCall (h : Nat) (next : UserStatus) (prev : Option UserStatus) (diff : StatusDiff)
  deriving DecidableEq, Repr

/-- Whether an action is a handler dispatch. -/
def Action.isHandlerCall : Action → Bool
  | .handlerCall _ _ _ _ => true
  | _ => false

/-- A handler dispatch carries exactly the diff `computeStatusDiff` yields for
its `(prev, next)` pair (vacuously true of other actions). -/
def Action.usesComputedDiff : Action → Bool
  | .handlerCall _ next prev d => d == computeStatusDiff prev next
  | _ => true

/-- Client state touched by the refresh pipeline of `createClient.ts`:
the in-memory `currentStatus`, the registered handler identities, and the
store's value at the status cache key. -/
structure PipeState where
  currentStatus : Option UserStatus
  handlers : List Nat
  store : Option CachedStatus
  deriving DecidableEq, Repr

/-- `notifyHandlers` from `createClient.ts`: compute the diff; when `prev` is
non-null and nothing meaningful changed, dispatch nothing; otherwise dispatch
to every registered handler (handler errors are swallowed at the dispatch
site, so every handler is reached). -/
def notifyHandlers (handlers : List Nat) (next : UserStatus) (prev : Option UserStatus) :
    List Action :=
  let diff := computeStatusDiff prev next
  if prev.isSome && !hasAnyChange diff then []
  else handlers.map (fun h => Action.handlerCall h next prev diff)

/-- `doRefresh` from `createClient.ts`: fetch the status, update
`currentStatus`, persist `{status, fetchedAt: now}` via `saveCachedStatus`.
It emits no handler dispatch itself; `fetched` is the endpoint's response and
`now` the wall clock at the save. -/
def doRefresh (st : PipeState) (now : Nat) (fetched : UserStatus) :
    PipeState × List Action :=
  ({ st with currentStatus := some fetched,
             store := some { status := fetched, fetchedAt := now } },
   [Action.fetch fetched,
    Action.storeWrite { status := fetched, fetchedAt := now }])

/-- The single `chrome.storage.onChanged` listener installed by
`attachStorageStatusListener` at client creation: ignore events without a new
value; take `prev` from the event's `oldValue` (not from `currentStatus`),
advance `currentStatus` to the new status, and dispatch via `notifyHandlers`. -/
def storageStatusListener (st : PipeState) (oldValue newValue : Option CachedStatus) :
    PipeState × List Action :=
  match newValue with
  | none => (st, [])
  | some cached =>
    let prev := oldValue.map (fun c => c.status)
    let next := cached.status
    ({ st with currentStatus := some next }, notifyHandlers st.handlers next prev)

/-- `DEFAULT_CACHE_TTL_MS` from `createClient.ts`. -/
def DEFAULT_CACHE_TTL_MS : Int := 30000

/-- `SWR_COOLDOWN_MS` from `createClient.ts`. -/
def SWR_COOLDOWN_MS : Int := 5000

/-- `loadCachedStatus` from `createClient.ts`: absent or stale
(age > `DEFAULT_CACHE_TTL_MS`) cache entries load as `none`. -/
def loadCachedStatus (store : Option CachedStatus) (now : Nat) : Option UserStatus :=
  match store with
  | none => none
  | some cached =>
    let age : Int := (now : Int) - (cached.fetchedAt : Int)
    if age > DEFAULT_CACHE_TTL_MS then none else some cached.status

/-- Which tier of `getUser` produced the result. -/
inductive Tier where
  | memory
  | storageCache
  | network
  deriving DecidableEq, Repr

/-- The observable outcome of one `getUser` call. -/
structure GetUserOutcome where
  result : UserStatus
  tier : Tier
  storageRead : Bool
  fetchOccurred : Bool
  newCurrentStatus : Option UserStatus
  swrTriggered : Bool
  deriving DecidableEq, Repr

/-- `getUser` from `createClient.ts`: tier 1 returns the in-memory
`currentStatus` unless `forceRefresh`; tier 2 loads the persisted cache
unless `forceRefresh` and, on a hit, triggers the paid-only SWR gate; tier 3
falls through to `doRefresh`. `fetched` is the oracle for the tier-3 fetch. -/
def getUser (force : Bool) (currentStatus : Option UserStatus)
    (store : Option CachedStatus) (now : Nat) (fetched : UserStatus) : GetUserOutcome :=
  match currentStatus, force with
  | some cur, false =>
      { result := cur, tier := Tier.memory, storageRead := false,
        fetchOccurred := false, newCurrentStatus := some cur, swrTriggered := false }
  | _, _ =>
    if force then
      { result := fetched, tier := Tier.network, storageRead := false,
        fetchOccurred := true, newCurrentStatus := some fetched, swrTriggered := false }
    else
      match loadCachedStatus store now with
      | some cached =>
          { result := cached, tier := Tier.storageCache, storageRead := true,
            fetchOccurred := false, newCurrentStatus := some cached,
            swrTriggered := cached.paid }
      | none =>
          { result := fetched, tier := Tier.network, storageRead := true,
            fetchOccurred := true, newCurrentStatus := some fetched,
            swrTriggered := false }

/-- Effects of the stale-while-revalidate gate, in execution order. -/
inductive SwrEffect where
  | writeCooldown (t : Nat)
  | revalidate
  deriving DecidableEq, Repr

/-- `schedulePaidSWRRevalidate` from `createClient.ts`: skip when an SWR
check is in flight; read the persisted last-SWR timestamp (`?? 0`); skip
inside the cooldown window; otherwise persist the cooldown timestamp and only
then run the deduplicated refresh. -/
def schedulePaidSWRRevalidate (swrCheckInFlight : Bool) (lastSwrStored : Option Nat)
    (now : Nat) : List SwrEffect :=
  if swrCheckInFlight then []
  else
    let last := lastSwrStored.getD 0
    if (now : Int) - (last : Int) < SWR_COOLDOWN_MS then []
    else [SwrEffect.writeCooldown now, SwrEffect.revalidate]

/-- `onStatusChanged` from `createClient.ts`: add the handler to the
registry; when the in-memory `currentStatus` is non-null, immediately invoke
the new handler once with `prev = null` and the hand-built diff
`{entitlementChanged: true, planChanged: currentStatus.plan != null,
usageChanged: false}`. Returns the new registry and the immediate
dispatches. -/
def onStatusChanged (currentStatus : Option UserStatus) (handlers : List Nat)
    (h : Nat) : List Nat × List Action :=
  let handlers' := handlers ++ [h]
  match currentStatus with
  | some s =>
      (handlers',
       [Action.handlerCall h s none
          { entitlementChanged := true, planChanged := s.plan.isSome,
            usageChanged := false }])
  | none => (handlers', [])

/-- State of the `autoSyncRefresh` de-duplication wrapper in
`createClient.ts`: the shared in-flight promise (identified by number), a
fresh-promise counter, and how many underlying `doRefresh` fetches have been
started. -/
structure DedupState where
  inFlight : Option Nat
  nextId : Nat
  fetchCount : Nat
  deriving DecidableEq, Repr

/-- One call to `autoSyncRefresh`: if a refresh is in flight, return that
same promise unchanged; otherwise start one underlying refresh, record the
new promise as in flight and return it. -/
def autoSyncRefreshCall (s : DedupState) : DedupState × Nat :=
  match s.inFlight with
  | some p => (s, p)
  | none =>
      ({ inFlight := some s.nextId, nextId := s.nextId + 1,
         fetchCount := s.fetchCount + 1 }, s.nextId)

/-- Settlement of the underlying refresh: the `finally` block clears the
in-flight marker whether the refresh succeeded or failed. -/
def autoSyncRefreshSettle (s : DedupState) (_succeeded : Bool) : DedupState :=
  { s with inFlight := none }

/-- `n` consecutive `autoSyncRefresh` calls with no settlement in between. -/
def autoSyncCalls : Nat → DedupState → DedupState
  | 0, s => s
  | n + 1, s => autoSyncCalls n (autoSyncRefreshCall s).1

/-- `Required<AutoSyncOptions>` from `src/client/types.ts`. -/
structure AutoSyncOptionsR where
  refreshOnInit : Bool
  refreshOnFocus : Bool
  refreshOnOnline : Bool
  debounceMs : Int
  minIntervalMs : Int
  deriving DecidableEq, Repr

/-- `DEFAULT_AUTOSYNC_OPTIONS` from `src/core/autosync.ts`. -/
def DEFAULT_AUTOSYNC_OPTIONS : AutoSyncOptionsR :=
  { refreshOnInit := true, refreshOnFocus := true, refreshOnOnline := true,
    debounceMs := 300, minIntervalMs := 3000 }

/-- `AutoSyncState` from `src/client/types.ts`; the pending `setTimeout`
handle is recorded by its scheduled delay, the cleanup closure by a flag. -/
structure AutoSyncState where
  enabled : Bool
  activated : Bool
  options : AutoSyncOptionsR
  lastRefreshAt : Int
  debounceTimer : Option Int
  pendingPostActionRefresh : Bool
  hasCleanup : Bool
  deriving DecidableEq, Repr

/-- `createAutoSyncState` from `src/core/autosync.ts` with no overrides. -/
def createAutoSyncState : AutoSyncState :=
  { enabled := true, activated := false, options := DEFAULT_AUTOSYNC_OPTIONS,
    lastRefreshAt := 0, debounceTimer := none,
    pendingPostActionRefresh := false, hasCleanup := false }

/-- `canRefresh` from `src/core/autosync.ts`: enough time has passed since
the last refresh. -/
def canRefresh (state : AutoSyncState) (now : Int) : Bool :=
  now - state.lastRefreshAt ≥ state.options.minIntervalMs

/-- What one `scheduleRefresh` call did: whether it cancelled a pending
timer, and the delay of the timer it installed. -/
structure ScheduleOutcome where
  cancelledPrev : Bool
  scheduledDelay : Int
  deriving DecidableEq, Repr

/-- `scheduleRefresh` from `src/core/autosync.ts`: clear any existing timer;
when the rate limit blocks, schedule for when the interval will have elapsed
(`minIntervalMs - (now - lastRefreshAt)`); otherwise debounce by
`debounceMs`. -/
def scheduleRefresh (state : AutoSyncState) (now : Int) :
    AutoSyncState × ScheduleOutcome :=
  let cancelled := state.debounceTimer.isSome
  if !canRefresh state now then
    let waitTime := state.options.minIntervalMs - (now - state.lastRefreshAt)
    ({ state with debounceTimer := some waitTime },
     { cancelledPrev := cancelled, scheduledDelay := waitTime })
  else
    ({ state with debounceTimer := some state.options.debounceMs },
     { cancelledPrev := cancelled, scheduledDelay := state.options.debounceMs })

/-- Effects of a firing timer, in execution order. -/
inductive RefreshEffect where
  | setLastRefreshAt (t : Int)
  | invokeRefresh
  deriving DecidableEq, Repr

/-- `executeRefresh` from `src/core/autosync.ts`: record
`lastRefreshAt := now` and clear the timer before invoking the refresh; an
error from the refresh (`refreshFails`) is swallowed, so the returned state
and effect trace do not depend on it. -/
def executeRefresh (state : AutoSyncState) (now : Int) (_refreshFails : Bool) :
    AutoSyncState × List RefreshEffect :=
  ({ state with lastRefreshAt := now, debounceTimer := none },
   [RefreshEffect.setLastRefreshAt now, RefreshEffect.invokeRefresh])

/-- The execution context observed by `isExtensionUiContext`: whether
`window`/`document` exist and the value of `location.protocol` when
defined. -/
structure ExecCtx where
  hasWindow : Bool
  hasDocument : Bool
  locationProtocol : Option String
  deriving DecidableEq, Repr

/-- `ALLOWED_PROTOCOLS` from `src/core/autosync.ts`. -/
def ALLOWED_PROTOCOLS : List String :=
  ["chrome-extension:", "moz-extension:", "safari-extension:"]

/-- `isExtensionUiContext` from `src/core/autosync.ts`. -/
def isExtensionUiContext (ctx : ExecCtx) : Bool :=
  if !ctx.hasWindow || !ctx.hasDocument then false
  else
    match ctx.locationProtocol with
    | none => false
    | some p => decide (p ∈ ALLOWED_PROTOCOLS)

/-- `setupAutoSyncListeners` from `src/core/autosync.ts`, recorded by the
names of the events it attaches listeners for: nothing outside an extension
UI context; otherwise visibility/focus listeners when `refreshOnFocus`, and
an online listener when `refreshOnOnline`. -/
def setupAutoSyncListeners (ctx : ExecCtx) (state : AutoSyncState) : List String :=
  if !isExtensionUiContext ctx then []
  else
    (if state.options.refreshOnFocus then ["visibilitychange", "focus"] else []) ++
      (if state.options.refreshOnOnline then ["online"] else [])

/-- Result of `activateAutoSync`: the new state, the listeners attached, and
whether the initial (`refreshOnInit`) refresh was scheduled. -/
structure ActivateOutcome where
  state : AutoSyncState
  listeners : List String
  scheduledInitialRefresh : Bool
  deriving DecidableEq, Repr

/-- `activateAutoSync` from `src/core/autosync.ts`: no-op when disabled,
already activated, or outside an extension UI context; otherwise attach
listeners, mark activated with a cleanup handle, and schedule the initial
refresh when `refreshOnInit`. -/
def activateAutoSync (ctx : ExecCtx) (state : AutoSyncState) : ActivateOutcome :=
  if !state.enabled then { state := state, listeners := [], scheduledInitialRefresh := false }
  else if state.activated then { state := state, listeners := [], scheduledInitialRefresh := false }
  else if !isExtensionUiContext ctx then { state := state, listeners := [], scheduledInitialRefresh := false }
  else
    { state := { state with activated := true, hasCleanup := true }
      listeners := setupAutoSyncListeners ctx state
      scheduledInitialRefresh := state.options.refreshOnInit }

/-- The chrome capabilities `enableBackgroundStatusTracking` probes for:
`chrome.runtime.onMessage`, the `chrome.alarms` API, and whether
`chrome.alarms.create` throws (missing permission). -/
structure ChromeEnv where
  hasRuntimeOnMessage : Bool
  hasAlarmsApi : Bool
  alarmCreateThrows : Bool
  deriving DecidableEq, Repr

/-- Per-client background tracking state of `createClient.ts`: the guard
flag, the listener-attached flags, and counters of registrations and warm-up
refreshes actually performed. -/
structure BgState where
  backgroundTrackingEnabled : Bool
  messageListenerAttached : Bool
  alarmListenerAttached : Bool
  messageListeners : Nat
  alarmListeners : Nat
  alarmsCreated : Nat
  warmupRefreshes : Nat
  deriving DecidableEq, Repr

/-- The background tracking state at client creation. -/
def initialBgState : BgState :=
  { backgroundTrackingEnabled := false, messageListenerAttached := false,
    alarmListenerAttached := false, messageListeners := 0, alarmListeners := 0,
    alarmsCreated := 0, warmupRefreshes := 0 }

/-- `enableBackgroundStatusTracking` from `createClient.ts`: guarded by
`backgroundTrackingEnabled`; attaches the checkout-return message listener
when `chrome.runtime.onMessage` exists; creates the alarm (a throw is
swallowed) and attaches the alarm handler when the alarms API exists; always
ends with one warm-up refresh. -/
def enableBackgroundStatusTracking (env : ChromeEnv) (st : BgState) : BgState :=
  if st.backgroundTrackingEnabled then st
  else
    let st1 := { st with backgroundTrackingEnabled := true }
    let st2 :=
      if env.hasRuntimeOnMessage && !st1.messageListenerAttached then
        { st1 with messageListenerAttached := true,
                   messageListeners := st1.messageListeners + 1 }
      else st1
    let st3 :=
      if env.hasAlarmsApi then
        let stc :=
          if env.alarmCreateThrows then st2
          else { st2 with alarmsCreated := st2.alarmsCreated + 1 }
        if !stc.alarmListenerAttached then
          { stc with alarmListenerAttached := true,
                     alarmListeners := stc.alarmListeners + 1 }
        else stc
      else st2
    { st3 with warmupRefreshes := st3.warmupRefreshes + 1 }

/-- `n` consecutive `enableBackgroundStatusTracking` calls. -/
def enableBgIter (env : ChromeEnv) : Nat → BgState → BgState
  | 0, st => st
  | n + 1, st => enableBgIter env n (enableBackgroundStatusTracking env st)

/-- A sample paid status with neither plan nor usage, used in witnesses. -/
def samplePaid : UserStatus :=
  { paid := true, plan := none, usage := none, userId := "u" }

/-- A sample unpaid status, used in witnesses. -/
def sampleFree : UserStatus :=
  { paid := false, plan := none, usage := none, userId := "u" }

/-- C3: when `prev` is absent, `computeStatusDiff` reports
`entitlementChanged = true`, and `planChanged`/`usageChanged` hold exactly
when the corresponding optional section of `next` is present. -/
theorem computeStatusDiff_absent_prev (next : UserStatus) :
    (computeStatusDiff none next).entitlementChanged = true
    ∧ ((computeStatusDiff none next).planChanged = true ↔ next.plan ≠ none)
    ∧ ((computeStatusDiff none next).usageChanged = true ↔ next.usage ≠ none) := by
  refine ⟨rfl, ?_, ?_⟩
  · cases hp : next.plan <;>
      simp [computeStatusDiff, computePlanChanged, hp]
  · cases hu : next.usage <;>
      simp [computeStatusDiff, computeUsageChanged, hu]

/-- C4: `hasAnyChange` is the logical OR of the three flags, and for a
non-null `prev` that agrees with `next` on every compared field (`paid`, the
plan section's compared fields, the usage section's compared fields — the
uncompared `userId` may differ), the diff reports no change and
`notifyHandlers` dispatches to no handler. -/
theorem hasAnyChange_or_and_equal_fields_silent (d : StatusDiff)
    (prev next : UserStatus) (handlers : List Nat)
    (hpaid : prev.paid = next.paid) (hplan : prev.plan = next.plan)
    (husage : prev.usage = next.usage) :
    hasAnyChange d = (d.entitlementChanged || d.planChanged || d.usageChanged)
    ∧ hasAnyChange (computeStatusDiff (some prev) next) = false
    ∧ notifyHandlers handlers next (some prev) = [] := by
  have hdiff : hasAnyChange (computeStatusDiff (some prev) next) = false := by
    cases hnp : next.plan <;> cases hnu : next.usage <;>
      simp [hasAnyChange, computeStatusDiff, computeEntitlementChanged,
        computePlanChanged, computeUsageChanged, hpaid, hplan, husage, hnp, hnu]
  refine ⟨rfl, hdiff, ?_⟩
  simp [notifyHandlers, hdiff]

/-- Witness for the C4 theorem at a concrete pair that differs only in the
uncompared `userId` field. -/
theorem hasAnyChange_or_and_equal_fields_silent_witness :
    hasAnyChange (computeStatusDiff
        (some { paid := true, plan := none, usage := none, userId := "a" })
        { paid := true, plan := none, usage := none, userId := "b" }) = false
    ∧ notifyHandlers [0, 1]
        { paid := true, plan := none, usage := none, userId := "b" }
        (some { paid := true, plan := none, usage := none, userId := "a" }) = [] :=
  ⟨(hasAnyChange_or_and_equal_fields_silent ⟨true, true, true⟩
      { paid := true, plan := none, usage := none, userId := "a" }
      { paid := true, plan := none, usage := none, userId := "b" } [0, 1]
      rfl rfl rfl).2.1,
   (hasAnyChange_or_and_equal_fields_silent ⟨true, true, true⟩
      { paid := true, plan := none, usage := none, userId := "a" }
      { paid := true, plan := none, usage := none, userId := "b" } [0, 1]
      rfl rfl rfl).2.2⟩

/-- C10: `onStatusChanged` appends the handler to the registry and, exactly
when the in-memory `currentStatus` is non-null at registration, immediately
invokes the new handler once with `prev = null` and the hand-built diff whose
`usageChanged` is false even when usage is present; with `currentStatus`
null, no immediate invocation occurs. -/
theorem onStatusChanged_immediate_dispatch (cur : Option UserStatus)
    (handlers : List Nat) (h : Nat) :
    (onStatusChanged cur handlers h).1 = handlers ++ [h]
    ∧ (∀ s, cur = some s →
        (onStatusChanged cur handlers h).2 =
          [Action.handlerCall h s none
            { entitlementChanged := true, planChanged := s.plan.isSome,
              usageChanged := false }])
    ∧ (cur = none → (onStatusChanged cur handlers h).2 = []) := by
  refine ⟨?_, ?_, ?_⟩
  · cases cur <;> rfl
  · intro s hs
    subst hs
    rfl
  · intro hn
    subst hn
    rfl

/-- Witness for the C10 theorem: with usage present the immediate dispatch
still carries `usageChanged = false`; with no current status there is none. -/
theorem onStatusChanged_immediate_dispatch_witness :
    (onStatusChanged
        (some { paid := true, plan := none,
                usage := some { used := 1, limit := 2, resetsAt := 3 },
                userId := "u" }) [] 7).2 =
      [Action.handlerCall 7
        { paid := true, plan := none,
          usage := some { used := 1, limit := 2, resetsAt := 3 }, userId := "u" }
        none
        { entitlementChanged := true, planChanged := false, usageChanged := false }]
    ∧ (onStatusChanged none [] 7).2 = [] :=
  ⟨(onStatusChanged_immediate_dispatch (some _) [] 7).2.1 _ rfl,
   (onStatusChanged_immediate_dispatch none [] 7).2.2 rfl⟩

/-- C1: `doRefresh` emits no handler dispatch — it only advances
`currentStatus` and persists `{status, fetchedAt}`; every handler dispatch of
the storage change-event listener (the only dispatching step) carries the
diff computed by `computeStatusDiff`; and the dispatches of the change event
echoed by `doRefresh`'s own store write are exactly `notifyHandlers` applied
to the event's old/new values. -/
theorem doRefresh_no_direct_notification (st : PipeState) (now : Nat)
    (fetched : UserStatus) (oldV newV : Option CachedStatus) :
    ((doRefresh st now fetched).2.all (fun a => !a.isHandlerCall)) = true
    ∧ (doRefresh st now fetched).1 =
        { st with currentStatus := some fetched,
                  store := some { status := fetched, fetchedAt := now } }
    ∧ ((storageStatusListener st oldV newV).2.all Action.usesComputedDiff) = true
    ∧ (storageStatusListener (doRefresh st now fetched).1 st.store
          (doRefresh st now fetched).1.store).2 =
        notifyHandlers st.handlers fetched (st.store.map (fun c => c.status)) := by
  refine ⟨rfl, rfl, ?_, rfl⟩
  cases newV with
  | none => rfl
  | some cached =>
    simp only [storageStatusListener, notifyHandlers]
    split
    · rfl
    · simp [Action.usesComputedDiff, List.all_map, List.all_eq_true]

/-- C2: `getUser` serves the first applicable tier — (1) the in-memory
`currentStatus` when present and not forcing, with no storage read and no
fetch; (2) the persisted cache when its age is at most 30000 ms, with no
fetch; (3) otherwise the `doRefresh` fetch result; and an entry aged exactly
31000 ms is stale and triggers a fetch. -/
theorem getUser_three_tier_order (force : Bool) (cur : Option UserStatus)
    (store : Option CachedStatus) (now : Nat) (fetched : UserStatus) :
    (∀ s, force = false → cur = some s →
        getUser force cur store now fetched =
          { result := s, tier := Tier.memory, storageRead := false,
            fetchOccurred := false, newCurrentStatus := some s,
            swrTriggered := false })
    ∧ (∀ c, force = false → cur = none → store = some c →
        (now : Int) - (c.fetchedAt : Int) ≤ 30000 →
        (getUser force cur store now fetched).result = c.status
        ∧ (getUser force cur store now fetched).tier = Tier.storageCache
        ∧ (getUser force cur store now fetched).fetchOccurred = false)
    ∧ (force = true ∨ (cur = none ∧ loadCachedStatus store now = none) →
        (getUser force cur store now fetched).result = fetched
        ∧ (getUser force cur store now fetched).tier = Tier.network
        ∧ (getUser force cur store now fetched).fetchOccurred = true)
    ∧ (∀ c, force = false → cur = none → store = some c →
        (now : Int) - (c.fetchedAt : Int) = 31000 →
        (getUser force cur store now fetched).tier = Tier.network
        ∧ (getUser force cur store now fetched).fetchOccurred = true) := by
  refine ⟨?_, ?_, ?_, ?_⟩
  · intro s hf hc
    subst hf
    subst hc
    rfl
  · intro c hf hc hs hage
    subst hf
    subst hc
    subst hs
    have hload : loadCachedStatus (some c) now = some c.status := by
      simp only [loadCachedStatus, DEFAULT_CACHE_TTL_MS]
      rw [if_neg (by omega)]
    refine ⟨?_, ?_, ?_⟩ <;> simp [getUser, hload]
  · rintro (hf | ⟨hc, hl⟩)
    · subst hf
      cases cur <;> exact ⟨rfl, rfl, rfl⟩
    · subst hc
      refine ⟨?_, ?_, ?_⟩ <;> cases force <;> simp [getUser, hl]
  · intro c hf hc hs hage
    subst hf
    subst hc
    subst hs
    have hload : loadCachedStatus (some c) now = none := by
      simp only [loadCachedStatus, DEFAULT_CACHE_TTL_MS]
      rw [if_pos (by omega)]
    refine ⟨?_, ?_⟩ <;> simp [getUser, hload]

/-- Witness for the C2 theorem: an in-memory hit is served from memory
without a fetch, and a persisted entry aged 31000 ms triggers a fetch. -/
theorem getUser_three_tier_order_witness :
    getUser false (some samplePaid) none 0 sampleFree =
      { result := samplePaid, tier := Tier.memory, storageRead := false,
        fetchOccurred := false, newCurrentStatus := some samplePaid,
        swrTriggered := false }
    ∧ (getUser false none (some { status := samplePaid, fetchedAt := 0 })
        31000 sampleFree).tier = Tier.network
    ∧ (getUser false none (some { status := samplePaid, fetchedAt := 0 })
        31000 sampleFree).fetchOccurred = true :=
  ⟨(getUser_three_tier_order false (some samplePaid) none 0 sampleFree).1
      samplePaid rfl rfl,
   ((getUser_three_tier_order false none
        (some { status := samplePaid, fetchedAt := 0 }) 31000 sampleFree).2.2.2
      { status := samplePaid, fetchedAt := 0 } rfl rfl rfl (by norm_num)).1,
   ((getUser_three_tier_order false none
        (some { status := samplePaid, fetchedAt := 0 }) 31000 sampleFree).2.2.2
      { status := samplePaid, fetchedAt := 0 } rfl rfl rfl (by norm_num)).2⟩

/-- C7 counterexample: a `getUser` cache hit served from the in-memory tier
returns a paid status yet does not trigger the SWR gate, refuting "every
getUser cache hit whose returned status has paid == true triggers the
stale-while-revalidate gate". -/
theorem paid_memory_hit_skips_swr_gate :
    (getUser false (some samplePaid) none 0 sampleFree).tier = Tier.memory
    ∧ (getUser false (some samplePaid) none 0 sampleFree).result.paid = true
    ∧ (getUser false (some samplePaid) none 0 sampleFree).swrTriggered = false :=
  ⟨rfl, rfl, rfl⟩

/-- C7 amended: only persisted-cache (tier-2) hits trigger the SWR gate —
`getUser` triggers it exactly when the result came from tier 2 with
`paid = true` (in particular tier-1 in-memory hits and unpaid hits never
trigger it) — and the gate skips when an SWR check is in flight, skips when
less than 5000 ms have elapsed since the persisted last-SWR timestamp, and
otherwise persists the new cooldown timestamp before the revalidation
fetch runs. -/
theorem swr_gate_behaviour (force : Bool) (cur : Option UserStatus)
    (store : Option CachedStatus) (now : Nat) (fetched : UserStatus)
    (inFlight : Bool) (lastStored : Option Nat) (t : Nat) :
    ((getUser force cur store now fetched).swrTriggered = true ↔
      ((getUser force cur store now fetched).tier = Tier.storageCache
        ∧ (getUser force cur store now fetched).result.paid = true))
    ∧ (inFlight = true → schedulePaidSWRRevalidate inFlight lastStored t = [])
    ∧ (inFlight = false → (t : Int) - ((lastStored.getD 0 : Nat) : Int) < 5000 →
        schedulePaidSWRRevalidate inFlight lastStored t = [])
    ∧ (inFlight = false → 5000 ≤ (t : Int) - ((lastStored.getD 0 : Nat) : Int) →
        schedulePaidSWRRevalidate inFlight lastStored t =
          [SwrEffect.writeCooldown t, SwrEffect.revalidate]) := by
  refine ⟨?_, ?_, ?_, ?_⟩
  · cases cur with
    | some s => cases force <;> simp [getUser]
    | none =>
      cases force
      · cases hl : loadCachedStatus store now with
        | some cached => simp [getUser, hl]
        | none => simp [getUser, hl]
      · simp [getUser]
  · intro hf
    subst hf
    rfl
  · intro hf hlt
    subst hf
    simp only [schedulePaidSWRRevalidate, SWR_COOLDOWN_MS, Bool.false_eq_true,
      if_false]
    rw [if_pos (by omega)]
  · intro hf hge
    subst hf
    simp only [schedulePaidSWRRevalidate, SWR_COOLDOWN_MS, Bool.false_eq_true,
      if_false]
    rw [if_neg (by omega)]

/-- Witness for the C7 amended theorem: a paid tier-2 hit triggers the gate;
the gate skips in flight and inside the cooldown, and at the cooldown
boundary writes the timestamp and then revalidates. -/
theorem swr_gate_behaviour_witness :
    (getUser false none (some { status := samplePaid, fetchedAt := 0 }) 0
        sampleFree).swrTriggered = true
    ∧ schedulePaidSWRRevalidate true (some 0) 9999 = []
    ∧ schedulePaidSWRRevalidate false (some 10) 5009 = []
    ∧ schedulePaidSWRRevalidate false (some 10) 5010 =
        [SwrEffect.writeCooldown 5010, SwrEffect.revalidate] :=
  ⟨(swr_gate_behaviour false none (some { status := samplePaid, fetchedAt := 0 })
      0 sampleFree false none 0).1.mpr ⟨rfl, rfl⟩,
   (swr_gate_behaviour false none none 0 sampleFree true (some 0) 9999).2.1 rfl,
   (swr_gate_behaviour false none none 0 sampleFree false (some 10) 5009).2.2.1
      rfl (by norm_num),
   (swr_gate_behaviour false none none 0 sampleFree false (some 10) 5010).2.2.2
      rfl (by norm_num)⟩

/-- Consecutive `autoSyncRefresh` calls leave a state that already has an
in-flight promise untouched. -/
theorem autoSyncCalls_of_inFlight (n : Nat) (s : DedupState) (p : Nat)
    (h : s.inFlight = some p) : autoSyncCalls n s = s := by
  induction n with
  | zero => rfl
  | succ n ih =>
    have hc : autoSyncRefreshCall s = (s, p) := by
      simp [autoSyncRefreshCall, h]
    show autoSyncCalls n (autoSyncRefreshCall s).1 = s
    rw [hc]
    exact ih

/-- C5: a call made while a refresh is in flight returns that same shared
promise and changes nothing; a group of `n + 1` overlapping calls performs
exactly one underlying fetch, with every later call returning the first
call's promise; and settlement — success and failure alike — clears the
in-flight marker. -/
theorem autoSyncRefresh_dedup (s : DedupState) (p : Nat) (n : Nat) (b : Bool) :
    (s.inFlight = some p → autoSyncRefreshCall s = (s, p))
    ∧ (s.inFlight = none →
        autoSyncCalls (n + 1) s = (autoSyncRefreshCall s).1
        ∧ (autoSyncCalls (n + 1) s).fetchCount = s.fetchCount + 1
        ∧ (autoSyncRefreshCall (autoSyncCalls (n + 1) s)).2 =
            (autoSyncRefreshCall s).2)
    ∧ (autoSyncRefreshSettle s b).inFlight = none := by
  refine ⟨?_, ?_, rfl⟩
  · intro h
    simp [autoSyncRefreshCall, h]
  · intro h
    have hc : autoSyncRefreshCall s =
        ({ inFlight := some s.nextId, nextId := s.nextId + 1,
           fetchCount := s.fetchCount + 1 }, s.nextId) := by
      simp [autoSyncRefreshCall, h]
    have hfix : autoSyncCalls (n + 1) s = (autoSyncRefreshCall s).1 := by
      show autoSyncCalls n (autoSyncRefreshCall s).1 = (autoSyncRefreshCall s).1
      exact autoSyncCalls_of_inFlight n _ s.nextId (by rw [hc])
    refine ⟨hfix, ?_, ?_⟩
    · rw [hfix, hc]
    · rw [hfix, hc]
      simp [autoSyncRefreshCall]

/-- Witness for the C5 theorem: a call during flight returns the shared
promise unchanged, and three overlapping calls perform exactly one fetch. -/
theorem autoSyncRefresh_dedup_witness :
    autoSyncRefreshCall { inFlight := some 5, nextId := 6, fetchCount := 1 } =
      ({ inFlight := some 5, nextId := 6, fetchCount := 1 }, 5)
    ∧ (autoSyncCalls 3 { inFlight := none, nextId := 0, fetchCount := 0 }).fetchCount = 1
    ∧ (autoSyncRefreshSettle { inFlight := some 5, nextId := 6, fetchCount := 1 }
        false).inFlight = none :=
  ⟨(autoSyncRefresh_dedup { inFlight := some 5, nextId := 6, fetchCount := 1 }
      5 0 true).1 rfl,
   ((autoSyncRefresh_dedup { inFlight := none, nextId := 0, fetchCount := 0 }
      0 2 true).2.1 rfl).2.1,
   (autoSyncRefresh_dedup { inFlight := some 5, nextId := 6, fetchCount := 1 }
      5 0 false).2.2⟩

/-- C6: `scheduleRefresh` always cancels whatever timer was pending and
installs a new one; when less than `minIntervalMs` has elapsed since
`lastRefreshAt` the new timer fires after exactly `minIntervalMs` minus the
elapsed time (a positive delay, not immediately), otherwise after
`debounceMs`; and a firing timer records `lastRefreshAt = now` before
invoking the refresh, whose failure is swallowed (the outcome is identical
for a failing and a succeeding refresh). -/
theorem scheduleRefresh_debounce_and_rate_limit (state : AutoSyncState)
    (now fireAt : Int) (b : Bool) :
    ((scheduleRefresh state now).2.cancelledPrev = state.debounceTimer.isSome)
    ∧ ((scheduleRefresh state now).1.debounceTimer =
        some (scheduleRefresh state now).2.scheduledDelay)
    ∧ (now - state.lastRefreshAt < state.options.minIntervalMs →
        (scheduleRefresh state now).2.scheduledDelay =
          state.options.minIntervalMs - (now - state.lastRefreshAt))
    ∧ (0 ≤ now - state.lastRefreshAt →
        now - state.lastRefreshAt < state.options.minIntervalMs →
        0 < (scheduleRefresh state now).2.scheduledDelay)
    ∧ (state.options.minIntervalMs ≤ now - state.lastRefreshAt →
        (scheduleRefresh state now).2.scheduledDelay = state.options.debounceMs)
    ∧ executeRefresh state fireAt b =
        ({ state with lastRefreshAt := fireAt, debounceTimer := none },
         [RefreshEffect.setLastRefreshAt fireAt, RefreshEffect.invokeRefresh])
    ∧ executeRefresh state fireAt true = executeRefresh state fireAt false := by
  have hlt : now - state.lastRefreshAt < state.options.minIntervalMs →
      (scheduleRefresh state now).2.scheduledDelay =
        state.options.minIntervalMs - (now - state.lastRefreshAt) := by
    intro h
    have hc : canRefresh state now = false := by
      simp only [canRefresh, decide_eq_false_iff_not]
      omega
    simp [scheduleRefresh, hc]
  refine ⟨?_, ?_, hlt, ?_, ?_, rfl, rfl⟩
  · cases hc : canRefresh state now <;> simp [scheduleRefresh, hc]
  · cases hc : canRefresh state now <;> simp [scheduleRefresh, hc]
  · intro h0 h
    rw [hlt h]
    omega
  · intro h
    have hc : canRefresh state now = true := by
      simp only [canRefresh, decide_eq_true_eq]
      omega
    simp [scheduleRefresh, hc]

/-- Witness for the C6 theorem on the default options: a trigger 1000 ms
after a refresh is pushed out to the remaining 2000 ms of the 3000 ms
interval; a trigger past the interval debounces by 300 ms; a firing timer
behaves identically when the refresh fails. -/
theorem scheduleRefresh_debounce_and_rate_limit_witness :
    (scheduleRefresh createAutoSyncState 1000).2.scheduledDelay = 2000
    ∧ (scheduleRefresh createAutoSyncState 5000).2.scheduledDelay = 300
    ∧ executeRefresh createAutoSyncState 5300 true =
        executeRefresh createAutoSyncState 5300 false := by
  refine ⟨?_, ?_,
    (scheduleRefresh_debounce_and_rate_limit createAutoSyncState 5300 5300
      true).2.2.2.2.2.2⟩
  · have h := (scheduleRefresh_debounce_and_rate_limit createAutoSyncState 1000
        0 true).2.2.1
      (by norm_num [createAutoSyncState, DEFAULT_AUTOSYNC_OPTIONS])
    simpa [createAutoSyncState, DEFAULT_AUTOSYNC_OPTIONS] using h
  · have h := (scheduleRefresh_debounce_and_rate_limit createAutoSyncState 5000
        0 true).2.2.2.2.1
      (by norm_num [createAutoSyncState, DEFAULT_AUTOSYNC_OPTIONS])
    simpa [createAutoSyncState, DEFAULT_AUTOSYNC_OPTIONS] using h

/-- C8: the inactive→active transition of `activateAutoSync` requires
`enabled = true`, not already activated, and an execution context recognized
as an extension UI page; context recognition is exactly `window` and
`document` defined plus `location.protocol` in the allow-list
`chrome-extension:`, `moz-extension:`, `safari-extension:`; and in a
disallowed context nothing is attached and the state — in particular
`activated` — is left untouched. -/
theorem activateAutoSync_context_gate (ctx : ExecCtx) (state : AutoSyncState) :
    ((activateAutoSync ctx state).state.activated = true → state.activated = false →
        state.enabled = true ∧ isExtensionUiContext ctx = true)
    ∧ (isExtensionUiContext ctx = false →
        activateAutoSync ctx state =
          { state := state, listeners := [], scheduledInitialRefresh := false })
    ∧ (state.enabled = true → state.activated = false →
        isExtensionUiContext ctx = true →
        (activateAutoSync ctx state).state.activated = true)
    ∧ (isExtensionUiContext ctx = true ↔
        (ctx.hasWindow = true ∧ ctx.hasDocument = true ∧
          ∃ p, ctx.locationProtocol = some p ∧ p ∈ ALLOWED_PROTOCOLS)) := by
  refine ⟨?_, ?_, ?_, ?_⟩
  · cases he : state.enabled <;> cases ha : state.activated <;>
      cases hui : isExtensionUiContext ctx <;>
      simp [activateAutoSync, he, ha, hui]
  · intro hui
    cases he : state.enabled <;> cases ha : state.activated <;>
      simp [activateAutoSync, he, ha, hui]
  · intro he ha hui
    simp [activateAutoSync, he, ha, hui]
  · cases ctx with
    | mk hw hd lp =>
      cases hw <;> cases hd <;> cases lp <;>
        simp [isExtensionUiContext]

/-- Witness for the C8 theorem: activation succeeds in a chrome-extension
popup context and is a no-op in a service-worker context. -/
theorem activateAutoSync_context_gate_witness :
    (activateAutoSync
        { hasWindow := true, hasDocument := true,
          locationProtocol := some "chrome-extension:" }
        createAutoSyncState).state.activated = true
    ∧ activateAutoSync
        { hasWindow := false, hasDocument := false, locationProtocol := none }
        createAutoSyncState =
        { state := createAutoSyncState, listeners := [],
          scheduledInitialRefresh := false } :=
  ⟨(activateAutoSync_context_gate
      { hasWindow := true, hasDocument := true,
        locationProtocol := some "chrome-extension:" }
      createAutoSyncState).2.2.1 rfl rfl (by decide),
   (activateAutoSync_context_gate
      { hasWindow := false, hasDocument := false, locationProtocol := none }
      createAutoSyncState).2.1 rfl⟩

/-- Once the guard flag is set, every further `enableBackgroundStatusTracking`
call is the identity. -/
theorem enableBgIter_of_enabled (env : ChromeEnv) (st : BgState)
    (h : st.backgroundTrackingEnabled = true) (m : Nat) :
    enableBgIter env m st = st := by
  induction m with
  | zero => rfl
  | succ m ih =>
    have hstep : enableBackgroundStatusTracking env st = st := by
      simp [enableBackgroundStatusTracking, h]
    show enableBgIter env m (enableBackgroundStatusTracking env st) = st
    rw [hstep]
    exact ih

/-- C9: `enableBackgroundStatusTracking` is idempotent — a call on a state
with the guard flag set is a no-op, the flag is set after any call, and any
number of calls from the fresh state equals a single call — and when the
message and alarms capabilities are both present that single effective call
registers exactly one message listener, exactly one alarm handler, and one
warm-up refresh. -/
theorem enableBackgroundStatusTracking_idempotent (env : ChromeEnv)
    (st : BgState) (n : Nat) :
    (st.backgroundTrackingEnabled = true →
        enableBackgroundStatusTracking env st = st)
    ∧ (enableBackgroundStatusTracking env st).backgroundTrackingEnabled = true
    ∧ enableBgIter env (n + 1) initialBgState =
        enableBackgroundStatusTracking env initialBgState
    ∧ (env.hasRuntimeOnMessage = true → env.hasAlarmsApi = true →
        (enableBgIter env (n + 1) initialBgState).messageListeners = 1
        ∧ (enableBgIter env (n + 1) initialBgState).alarmListeners = 1
        ∧ (enableBgIter env (n + 1) initialBgState).warmupRefreshes = 1) := by
  have henb : ∀ (e : ChromeEnv) (s : BgState),
      (enableBackgroundStatusTracking e s).backgroundTrackingEnabled = true := by
    intro e s
    cases h : s.backgroundTrackingEnabled
    · simp only [enableBackgroundStatusTracking, h, Bool.false_eq_true, if_false]
      split_ifs <;> rfl
    · simp [enableBackgroundStatusTracking, h]
  have hiter : enableBgIter env (n + 1) initialBgState =
      enableBackgroundStatusTracking env initialBgState := by
    show enableBgIter env n (enableBackgroundStatusTracking env initialBgState) =
      enableBackgroundStatusTracking env initialBgState
    exact enableBgIter_of_enabled env _ (henb env initialBgState) n
  refine ⟨?_, henb env st, hiter, ?_⟩
  · intro h
    simp [enableBackgroundStatusTracking, h]
  · intro hm ha
    rw [hiter]
    cases env with
    | mk m a t =>
      simp only at hm ha
      subst hm
      subst ha
      cases t <;>
        simp [enableBackgroundStatusTracking, initialBgState]

/-- Witness for the C9 theorem: with both capabilities present, two calls
from the fresh state equal one and leave exactly one message listener, one
alarm handler and one warm-up refresh; a call on an already-enabled state is
a no-op. -/
theorem enableBackgroundStatusTracking_idempotent_witness :
    enableBgIter
        { hasRuntimeOnMessage := true, hasAlarmsApi := true,
          alarmCreateThrows := false } 2 initialBgState =
      enableBackgroundStatusTracking
        { hasRuntimeOnMessage := true, hasAlarmsApi := true,
          alarmCreateThrows := false } initialBgState
    ∧ (enableBgIter
        { hasRuntimeOnMessage := true, hasAlarmsApi := true,
          alarmCreateThrows := false } 2 initialBgState).messageListeners = 1
    ∧ (enableBgIter
        { hasRuntimeOnMessage := true, hasAlarmsApi := true,
          alarmCreateThrows := false } 2 initialBgState).alarmListeners = 1
    ∧ enableBackgroundStatusTracking
        { hasRuntimeOnMessage := true, hasAlarmsApi := true,
          alarmCreateThrows := false }
        { backgroundTrackingEnabled := true, messageListenerAttached := true,
          alarmListenerAttached := true, messageListeners := 1,
          alarmListeners := 1, alarmsCreated := 1, warmupRefreshes := 1 } =
        { backgroundTrackingEnabled := true, messageListenerAttached := true,
          alarmListenerAttached := true, messageListeners := 1,
          alarmListeners := 1, alarmsCreated := 1, warmupRefreshes := 1 } :=
  ⟨(enableBackgroundStatusTracking_idempotent
      { hasRuntimeOnMessage := true, hasAlarmsApi := true,
        alarmCreateThrows := false } initialBgState 1).2.2.1,
   ((enableBackgroundStatusTracking_idempotent
      { hasRuntimeOnMessage := true, hasAlarmsApi := true,
        alarmCreateThrows := false } initialBgState 1).2.2.2 rfl rfl).1,
   ((enableBackgroundStatusTracking_idempotent
      { hasRuntimeOnMessage := true, hasAlarmsApi := true,
        alarmCreateThrows := false } initialBgState 1).2.2.2 rfl rfl).2.1,
   (enableBackgroundStatusTracking_idempotent
      { hasRuntimeOnMessage := true, hasAlarmsApi := true,
        alarmCreateThrows := false }
      { backgroundTrackingEnabled := true, messageListenerAttached := true,
        alarmListenerAttached := true, messageListeners := 1,
        alarmListeners := 1, alarmsCreated := 1, warmupRefreshes := 1 } 0).1
      rfl⟩

end BillingExt
